import Mathlib

/-!
Shallow embedding of the two scripts `UE_installPyside6.py` and
`UE_uninstallPyside6.py`.

Paths are modelled as lists of components.  The filesystem, the platform,
the process identity (`sys.executable`, resolved `sys.argv[0]`), the result
of `importlib.util.find_spec("PySide6")`, the behaviour of spawned child
processes, and the contents of the engine's site-packages directory are all
packaged in an environment record `Env`; each script function becomes a
pure Lean function of that environment.

A spawned child process either starts and exits with a code and captured
stdout, or fails to start (the `OSError` family raised by `subprocess`
before the child runs).  `subprocess.check_call` / `subprocess.run(...,
check=True)` turn a non-zero exit into `CalledProcessError`; the scripts
catch exactly that class, so a start failure escapes as an uncaught Python
exception, modelled by the `Except` layer of `OpRes`.

Logging calls (`unreal.log` and friends) have no observable effect in this
model and are dropped.
-/

namespace UEPyside6

/-- A filesystem path: its components, root-to-leaf. -/
abbrev FsPath := List String

/-- The three platform branches taken by `sys.platform` tests in the scripts. -/
inductive Platform
  | win
  | darwin
  | linux
deriving DecidableEq, Repr

/-- Outcome of handing a command line to the OS: the child exits with a code
and a captured stdout, or it cannot be started at all. -/
inductive SpawnOutcome
  | exited (code : Nat) (stdout : String)
  | startFailure
deriving DecidableEq, Repr

/-- The one kind of Python exception the scripts let escape in this model:
the `OSError` raised when a child process cannot be started. -/
inductive PyExc
  | osError
deriving DecidableEq, Repr

/-- Abstract filesystem.  `listing` is the full enumeration of paths in the
traversal order that `glob.glob` would produce (hidden entries that glob
skips are simply absent from it). -/
structure FS where
  pathExists : FsPath → Bool
  isFile : FsPath → Bool
  isExec : FsPath → Bool
  listing : List FsPath

/-- One entry of the site-packages directory: its name, whether it is a
directory, and whether an attempt to remove it succeeds (permissions). -/
structure SPEntry where
  name : String
  isDir : Bool
  removable : Bool
deriving DecidableEq, Repr

/-- The ambient state a script run observes. `findSpec` is the result of
`importlib.util.find_spec("PySide6")` with the module spec abstracted to
`Unit`; `sitePackages` is the directory the interpreter's site-packages
query points at. -/
structure Env where
  fs : FS
  platform : Platform
  sysExecutable : FsPath
  argv0Resolved : FsPath
  findSpec : Option Unit
  spawn : List String → SpawnOutcome
  sitePackages : List SPEntry

/-- Result of running one script operation: the command lines handed to the
OS, in order, and either a returned value or an uncaught Python exception. -/
structure OpRes (α : Type) where
  spawned : List (List String)
  outcome : Except PyExc α

/-- Result of `cleanup_pyside6_cache`: additionally the final contents of
the site-packages directory. -/
structure CleanRes where
  spawned : List (List String)
  outcome : Except PyExc Bool
  finalListing : List SPEntry

/-- `str(path)`: join the components. The separator never matters to any
claim. -/
def pathStr (p : FsPath) : String := String.intercalate "/" p

/-- `path.name`: the final component (empty for an empty path). -/
def pathName (p : FsPath) : String := (p.getLast?).getD ""

/-- `editor_exe.parents[2]`: drop the last three components.  With fewer
than three components the Python expression raises `IndexError`, which the
caller's `except Exception` swallows; modelled as `none`. -/
def parentsIdx2 (p : FsPath) : Option FsPath :=
  if 3 ≤ p.length then some (p.take (p.length - 3)) else none

/-- The fixed candidate interpreter paths below `<engine>/Binaries/ThirdParty`,
per platform, exactly as listed in `_guess_embedded_python_exe_from_editor`. -/
def candidatePaths (plat : Platform) (thirdparty : FsPath) : List FsPath :=
  match plat with
  | .win =>
      [thirdparty ++ ["Python3", "Win64", "python.exe"],
       thirdparty ++ ["Python3", "Win64", "python3.exe"]]
  | .darwin =>
      [thirdparty ++ ["Python3", "Mac", "bin", "python3"]]
  | .linux =>
      [thirdparty ++ ["Python3", "Linux", "bin", "python3"]]

/-- Does `p` match the recursive glob pattern `ThirdParty/Python*/**/python*`?
That is: `tp` is a proper prefix, the next component starts with `Python`,
and the final component (at least one level further down, `**` matching
zero or more directories in between) starts with `python`. -/
def globFallbackMatch (tp : FsPath) (p : FsPath) : Bool :=
  tp.isPrefixOf p &&
    (match p.drop tp.length with
     | [] => false
     | d :: rest =>
       "Python".isPrefixOf d &&
         (match rest.getLast? with
          | none => false
          | some f => "python".isPrefixOf f))

/-- The hits of `glob.glob(str(thirdparty / "Python*" / "**" / "python*"),
recursive=True)`: the filesystem's enumeration filtered by the pattern. -/
def globHits (fs : FS) (tp : FsPath) : List FsPath :=
  fs.listing.filter (globFallbackMatch tp)

/-- The `for c in candidates: if c.exists(): return c` loop. -/
def firstExisting (fs : FS) : List FsPath → Option FsPath
  | [] => none
  | c :: cs => if fs.pathExists c then some c else firstExisting fs cs

/-- The `for h in hits: if p.is_file() and os.access(p, os.X_OK): return p`
loop over the glob fallback hits. -/
def firstUsable (fs : FS) : List FsPath → Option FsPath
  | [] => none
  | h :: hs => if fs.isFile h && fs.isExec h then some h else firstUsable fs hs

/-- `_guess_embedded_python_exe_from_editor`: candidates first, then the
recursive glob fallback; every exception inside (`IndexError` from
`parents[2]` included) is swallowed by `except Exception: pass`, yielding
`None`. -/
def guess_embedded_python_exe_from_editor (env : Env) (editor_exe : FsPath) :
    Option FsPath :=
  match parentsIdx2 editor_exe with
  | none => none
  | some engineDir =>
    let thirdparty := engineDir ++ ["Binaries", "ThirdParty"]
    match firstExisting env.fs (candidatePaths env.platform thirdparty) with
    | some c => some c
    | none => firstUsable env.fs (globHits env.fs thirdparty)

/-- `get_unreal_editor_exe`: `sys.executable` when its file name lowercased
starts with `unrealeditor`, else the resolved `sys.argv[0]`.  Python string
operations are modelled on the character lists: `.lower()` is
`List.map Char.toLower`, `.startswith` is `List.isPrefixOf`. -/
def get_unreal_editor_exe (env : Env) : FsPath :=
  if "unrealeditor".data.isPrefixOf
      ((pathName env.sysExecutable).data.map Char.toLower) then
    env.sysExecutable
  else
    env.argv0Resolved

/-- `get_embedded_python_exe`: guess from the editor path, then re-check
`py.exists()`; on failure log a warning and return `None`. -/
def get_embedded_python_exe (env : Env) : Option FsPath :=
  match guess_embedded_python_exe_from_editor env (get_unreal_editor_exe env) with
  | some py => if env.fs.pathExists py then some py else none
  | none => none

/-- What `subprocess.check_call(cmd)` / `subprocess.run(cmd, check=True)`
deliver back to the script: a normal return (with captured stdout), a
`CalledProcessError` (non-zero exit), or a failure to start at all. -/
inductive CallOutcome
  | normal (stdout : String)
  | calledProcessError
  | startFailed
deriving DecidableEq, Repr

/-- Run a command and wait: non-zero exit becomes `CalledProcessError`. -/
def runWait (o : SpawnOutcome) : CallOutcome :=
  match o with
  | .exited code out => if code == 0 then .normal out else .calledProcessError
  | .startFailure => .startFailed

/-- The command line built by `pip_install_into_engine_sitepackages`.  Note:
the source hardcodes the literal `"PySide6"` and never uses its `package`
parameter. -/
def pip_install_cmd (py : FsPath) (package : String) (extraArgs : List String) :
    List String :=
  [pathStr py, "-m", "pip", "install", "--no-warn-script-location", "PySide6"]
    ++ extraArgs

/-- The command line built by `pip_uninstall_from_engine_sitepackages`. -/
def pip_uninstall_cmd (py : FsPath) (package : String) (extraArgs : List String) :
    List String :=
  [pathStr py, "-m", "pip", "uninstall", "--yes", package] ++ extraArgs

/-- `pip_install_into_engine_sitepackages`: abort with `False` when no
interpreter is found; otherwise `check_call` the pip command, catching only
`CalledProcessError`.  The Python `extra_args: Optional[List[str]] = None`
is modelled as a plain list (`None` is the empty list; `cmd.extend` of an
empty list is appending it). -/
def pip_install_into_engine_sitepackages (env : Env) (package : String)
    (extraArgs : List String) : OpRes Bool :=
  match get_embedded_python_exe env with
  | none => ⟨[], .ok false⟩
  | some py =>
    let cmd := pip_install_cmd py package extraArgs
    match runWait (env.spawn cmd) with
    | .normal _ => ⟨[cmd], .ok true⟩
    | .calledProcessError => ⟨[cmd], .ok false⟩
    | .startFailed => ⟨[cmd], .error .osError⟩

/-- `pip_uninstall_from_engine_sitepackages`: same shape as the install. -/
def pip_uninstall_from_engine_sitepackages (env : Env) (package : String)
    (extraArgs : List String) : OpRes Bool :=
  match get_embedded_python_exe env with
  | none => ⟨[], .ok false⟩
  | some py =>
    let cmd := pip_uninstall_cmd py package extraArgs
    match runWait (env.spawn cmd) with
    | .normal _ => ⟨[cmd], .ok true⟩
    | .calledProcessError => ⟨[cmd], .ok false⟩
    | .startFailed => ⟨[cmd], .error .osError⟩

/-- `check_pyside6_installed`: truthiness of
`importlib.util.find_spec("PySide6")`. -/
def check_pyside6_installed (spec : Option Unit) : Bool :=
  if spec.isSome then true else false

/-- `check_pyside6_installed` as an operation run: it touches no process. -/
def check_pyside6_installed_run (env : Env) : OpRes Bool :=
  ⟨[], .ok (check_pyside6_installed env.findSpec)⟩

/-- `ensure_pyside2` (from the install script): return `True` when the spec
resolves, otherwise fall through to the pip installation. -/
def ensure_pyside2 (env : Env) : OpRes Bool :=
  if check_pyside6_installed env.findSpec then ⟨[], .ok true⟩
  else pip_install_into_engine_sitepackages env "PySide6" []

/-- The `pip show PySide6` command of `get_pyside6_installation_info`. -/
def pip_show_cmd (py : FsPath) : List String :=
  [pathStr py, "-m", "pip", "show", "PySide6"]

/-- `get_pyside6_installation_info`: captured stdout on success, `None` on
`CalledProcessError`; a start failure is uncaught. -/
def get_pyside6_installation_info (env : Env) : OpRes (Option String) :=
  match get_embedded_python_exe env with
  | none => ⟨[], .ok none⟩
  | some py =>
    let cmd := pip_show_cmd py
    match runWait (env.spawn cmd) with
    | .normal out => ⟨[cmd], .ok (some out)⟩
    | .calledProcessError => ⟨[cmd], .ok none⟩
    | .startFailed => ⟨[cmd], .error .osError⟩

/-- The `pip list` command of `list_installed_packages`. -/
def pip_list_cmd (py : FsPath) : List String :=
  [pathStr py, "-m", "pip", "list"]

/-- `list_installed_packages`: logs the output; returns nothing either way,
catching only `CalledProcessError`. -/
def list_installed_packages (env : Env) : OpRes Unit :=
  match get_embedded_python_exe env with
  | none => ⟨[], .ok ()⟩
  | some py =>
    let cmd := pip_list_cmd py
    match runWait (env.spawn cmd) with
    | .normal _ => ⟨[cmd], .ok ()⟩
    | .calledProcessError => ⟨[cmd], .ok ()⟩
    | .startFailed => ⟨[cmd], .error .osError⟩

/-- `uninstall_pyside6`, the top-level driver.  The two
`check_pyside6_installed()` calls read the interpreter's module-resolution
state at two different times (pip mutates it in between), so the two
`find_spec` results are passed separately as `specBefore` / `specAfter`. -/
def uninstall_pyside6 (env : Env) (specBefore specAfter : Option Unit) :
    OpRes Bool :=
  if check_pyside6_installed specBefore then
    let info := get_pyside6_installation_info env
    match info.outcome with
    | .error e => ⟨info.spawned, .error e⟩
    | .ok _ =>
      let unin := pip_uninstall_from_engine_sitepackages env "PySide6" []
      match unin.outcome with
      | .error e => ⟨info.spawned ++ unin.spawned, .error e⟩
      | .ok true =>
        ⟨info.spawned ++ unin.spawned, .ok (! check_pyside6_installed specAfter)⟩
      | .ok false => ⟨info.spawned ++ unin.spawned, .ok false⟩
  else ⟨[], .ok false⟩

/-- Fuel-indexed matcher for glob patterns built from literal characters and
`*`.  Structural in the fuel so that it reduces definitionally; `globMatch`
below supplies fuel that can never run out (every step consumes one unit
and shortens pattern-plus-string by at least one, and the fuel-zero arm is
reachable only with a nonempty pattern, i.e. never). -/
def globMatchFuel : Nat → List Char → List Char → Bool
  | _, [], [] => true
  | _, [], _ :: _ => false
  | 0, _ :: _, _ => false
  | Nat.succ f, '*' :: ps, [] => globMatchFuel f ps []
  | Nat.succ f, '*' :: ps, c :: cs =>
      globMatchFuel f ps (c :: cs) || globMatchFuel f ('*' :: ps) cs
  | Nat.succ f, p :: ps, c :: cs => (p == c) && globMatchFuel f ps cs
  | Nat.succ _, _ :: _, [] => false

/-- Does `name` match the shell glob `pat` (literals and `*` only)? -/
def globMatch (pat : String) (name : String) : Bool :=
  globMatchFuel (pat.data.length + name.data.length) pat.data name.data

/-- The three patterns `cleanup_pyside6_cache` globs for. -/
def cleanupPatterns : List String := ["PySide6*", "shiboken6*", "*pyside6*"]

/-- Does the name match at least one of the cleanup patterns? -/
def matchesAnyPattern (name : String) : Bool :=
  cleanupPatterns.any (fun pat => globMatch pat name)

/-- `pyside_paths`: for each pattern in order, the site-packages entries the
pattern matches, in directory order — concatenated (an entry matching two
patterns occurs twice, as with the source's repeated `extend`). -/
def matchedEntries (listing : List SPEntry) : List SPEntry :=
  (cleanupPatterns.map (fun pat => listing.filter (fun e => globMatch pat e.name))).flatten

/-- The removal loop of `cleanup_pyside6_cache` over the matched paths:
each iteration tries `shutil.rmtree` / `Path.unlink` and catches any
exception (permission failure, or the path already removed by an earlier
iteration), so one failure never stops the loop. -/
def removeLoop : List SPEntry → List SPEntry → List SPEntry
  | [], st => st
  | e :: rest, st =>
      removeLoop rest (if e.removable then st.filter (fun x => x.name != e.name) else st)

/-- The `python -c` site-packages query of `cleanup_pyside6_cache`. -/
def site_packages_query_cmd (py : FsPath) : List String :=
  [pathStr py, "-c", "import site; print(site.getsitepackages()[0])"]

/-- `cleanup_pyside6_cache`: query site-packages by subprocess; on success
glob the three patterns and best-effort remove each hit, returning `True`
whether or not anything was found or removed; on `CalledProcessError`
return `False`; a start failure is uncaught.  The directory the query's
stdout points at is `env.sitePackages`. -/
def cleanup_pyside6_cache (env : Env) : CleanRes :=
  match get_embedded_python_exe env with
  | none => ⟨[], .ok false, env.sitePackages⟩
  | some py =>
    let cmd := site_packages_query_cmd py
    match runWait (env.spawn cmd) with
    | .normal _ =>
      ⟨[cmd], .ok true, removeLoop (matchedEntries env.sitePackages) env.sitePackages⟩
    | .calledProcessError => ⟨[cmd], .ok false, env.sitePackages⟩
    | .startFailed => ⟨[cmd], .error .osError, env.sitePackages⟩

/-- `open_python_folder_in_explorer`: `Popen` a file-browser command at the
interpreter's folder; nothing is returned.  `Popen` raises when the browser
executable cannot be started, and nothing catches that. -/
def open_python_folder_in_explorer (env : Env) : OpRes Unit :=
  match get_embedded_python_exe env with
  | none => ⟨[], .ok ()⟩
  | some py =>
    let folder := py.dropLast
    let cmd :=
      match env.platform with
      | .win => ["explorer", pathStr folder]
      | .darwin => ["open", pathStr folder]
      | .linux => ["xdg-open", pathStr folder]
    match env.spawn cmd with
    | .startFailure => ⟨[cmd], .error .osError⟩
    | .exited _ _ => ⟨[cmd], .ok ()⟩

/-- `open_cmd_at_python`: Windows-only `Popen("cmd.exe", cwd=folder)`;
elsewhere only a warning is logged. -/
def open_cmd_at_python (env : Env) : OpRes Unit :=
  match get_embedded_python_exe env with
  | none => ⟨[], .ok ()⟩
  | some _ =>
    match env.platform with
    | .win =>
      match env.spawn ["cmd.exe"] with
      | .startFailure => ⟨[["cmd.exe"]], .error .osError⟩
      | .exited _ _ => ⟨[["cmd.exe"]], .ok ()⟩
    | _ => ⟨[], .ok ()⟩

/-- Is the operation outcome a normal return (no uncaught exception)? -/
def exceptOk {α : Type} : Except PyExc α → Bool
  | .ok _ => true
  | .error _ => false

/-- Did the spawn outcome actually run the child to completion? -/
def SpawnOutcome.isExited : SpawnOutcome → Bool
  | .exited _ _ => true
  | .startFailure => false

/-- Spec-side description of the locator, written from the spec's words
(refinement counterpart of `guess_embedded_python_exe_from_editor`): check
the fixed candidates for existence in order and return the first that
exists; otherwise return the first recursive-wildcard hit that is both a
regular file and executable; otherwise an absent result. -/
def locator_spec_description (env : Env) (editor_exe : FsPath) : Option FsPath :=
  match parentsIdx2 editor_exe with
  | none => none
  | some engineDir =>
    let thirdparty := engineDir ++ ["Binaries", "ThirdParty"]
    match (candidatePaths env.platform thirdparty).find? env.fs.pathExists with
    | some c => some c
    | none =>
      (env.fs.listing.filter (globFallbackMatch thirdparty)).find?
        (fun h => env.fs.isFile h && env.fs.isExec h)

/-- Spec-side case-insensitive begins-with: lower both strings and compare
prefixes (the source instead compares the lowered name against an
already-lowercase literal). -/
def beginsWithCI (s pre : String) : Bool :=
  (pre.data.map Char.toLower).isPrefixOf (s.data.map Char.toLower)

/-- A filesystem on which every path exists as an executable regular file. -/
def fsAll : FS := ⟨fun _ => true, fun _ => true, fun _ => true, []⟩

/-- A filesystem on which no path exists. -/
def fsEmpty : FS := ⟨fun _ => false, fun _ => false, fun _ => false, []⟩

/-- A concrete editor executable path in the conventional layout. -/
def editorExeW : FsPath := ["C:", "UE", "Engine", "Binaries", "Win64", "UnrealEditor.exe"]

/-- The first Windows interpreter candidate for `editorExeW`. -/
def pyW : FsPath :=
  ["C:", "UE", "Engine", "Binaries", "ThirdParty", "Python3", "Win64", "python.exe"]

/-- Concrete environments for witnesses: a Windows process whose
`sys.executable` is `editorExeW`, with the given filesystem, spawn
behaviour, `find_spec` result and site-packages contents. -/
def mkEnv (fs : FS) (sp : List String → SpawnOutcome) (spec : Option Unit)
    (sps : List SPEntry) : Env :=
  { fs := fs
    platform := .win
    sysExecutable := editorExeW
    argv0Resolved := ["C:", "argv0"]
    findSpec := spec
    spawn := sp
    sitePackages := sps }

/-- Every spawn fails to start; interpreter present; spec resolvable. -/
def envStartFail : Env := mkEnv fsAll (fun _ => .startFailure) (some ()) []

/-- Every spawn exits 0; interpreter present; spec resolvable. -/
def envExitZero : Env := mkEnv fsAll (fun _ => .exited 0 "") (some ()) []

/-- Every spawn exits 3; interpreter present. -/
def envExitThree : Env := mkEnv fsAll (fun _ => .exited 3 "") (some ()) []

/-- Interpreter present, spawns succeed, but the module spec is absent. -/
def envNoSpec : Env := mkEnv fsAll (fun _ => .exited 0 "") none []

/-- No interpreter can be found anywhere on the filesystem. -/
def envNotFound : Env :=
  mkEnv fsEmpty (fun _ => .exited 0 "") (some ()) [⟨"PySide6", true, true⟩]

/-- Site-packages with an unremovable matched entry, a removable matched
entry and an unrelated entry; spawns succeed. -/
def envCleanMixed : Env :=
  mkEnv fsAll (fun _ => .exited 0 "") (some ())
    [⟨"PySide6", true, false⟩, ⟨"shiboken6_x", false, true⟩, ⟨"numpy", true, true⟩]

/-- Site-packages where every matched entry fails to be removed. -/
def envCleanStuck : Env :=
  mkEnv fsAll (fun _ => .exited 0 "") (some ())
    [⟨"PySide6", true, false⟩, ⟨"PySide6-6.5.dist-info", true, false⟩]

theorem firstExisting_eq_find (fs : FS) (l : List FsPath) :
    firstExisting fs l = l.find? fs.pathExists := by
  induction l with
  | nil => rfl
  | cons c cs ih =>
    cases h : fs.pathExists c <;> simp [firstExisting, List.find?, h, ih]

theorem firstUsable_eq_find (fs : FS) (l : List FsPath) :
    firstUsable fs l = l.find? (fun h => fs.isFile h && fs.isExec h) := by
  induction l with
  | nil => rfl
  | cons c cs ih =>
    cases h : fs.isFile c && fs.isExec c <;> simp [firstUsable, List.find?, h, ih]

/-- Claim C1: for every host-executable path, the locator returns the first
existing fixed candidate; failing that, the first recursive-wildcard hit
that is a regular, executable file; failing that, an absent result — and,
being a total function into `Option`, no exception escapes it. -/
theorem claim_C1 (env : Env) (editor_exe : FsPath) :
    guess_embedded_python_exe_from_editor env editor_exe =
      locator_spec_description env editor_exe := by
  unfold guess_embedded_python_exe_from_editor locator_spec_description
  cases parentsIdx2 editor_exe with
  | none => rfl
  | some engineDir =>
    simp only [globHits, firstExisting_eq_find, firstUsable_eq_find]

/-- Claim C8: the reference executable is the interpreter-reported
`sys.executable` exactly when its file name begins case-insensitively with
`UnrealEditor`, and the resolved `argv[0]` otherwise. -/
theorem claim_C8 (env : Env) :
    get_unreal_editor_exe env =
      if beginsWithCI (pathName env.sysExecutable) "UnrealEditor" then
        env.sysExecutable
      else
        env.argv0Resolved := by
  have h : "UnrealEditor".data.map Char.toLower = "unrealeditor".data := by decide
  rw [get_unreal_editor_exe, beginsWithCI, h]

/-- Claim C3 (divergence): at the concrete package name `"PySide2"` — the
install function's own default — the uninstall command line names the
passed package as the final pip argument, but the install command line
ignores the parameter and names the literal `"PySide6"` instead. -/
theorem claim_C3_divergence :
    pip_uninstall_cmd ["py"] "PySide2" []
        = ["py", "-m", "pip", "uninstall", "--yes", "PySide2"] ∧
    pip_install_cmd ["py"] "PySide2" []
        = ["py", "-m", "pip", "install", "--no-warn-script-location", "PySide6"] ∧
    ("PySide6" : String) ≠ "PySide2" := by
  refine ⟨by decide, by decide, by decide⟩

/-- Claim C4: with a resolved interpreter, install and uninstall return
exactly "exit code is zero", and in both cases the outcome is a normal
return, not an exception. -/
theorem claim_C4 (env : Env) (py : FsPath) (package : String)
    (extraArgs : List String) (codeI codeU : Nat) (outI outU : String)
    (hpy : get_embedded_python_exe env = some py)
    (hI : env.spawn (pip_install_cmd py package extraArgs) = .exited codeI outI)
    (hU : env.spawn (pip_uninstall_cmd py package extraArgs) = .exited codeU outU) :
    pip_install_into_engine_sitepackages env package extraArgs
        = ⟨[pip_install_cmd py package extraArgs], .ok (codeI == 0)⟩ ∧
    pip_uninstall_from_engine_sitepackages env package extraArgs
        = ⟨[pip_uninstall_cmd py package extraArgs], .ok (codeU == 0)⟩ := by
  constructor
  · simp only [pip_install_into_engine_sitepackages, hpy, hI, runWait]
    cases h : (codeI == 0) <;> simp [h]
  · simp only [pip_uninstall_from_engine_sitepackages, hpy, hU, runWait]
    cases h : (codeU == 0) <;> simp [h]

/-- Witness for claim C4: in a concrete environment where every child exits
with code 3, both operations return `false` without an exception. -/
theorem claim_C4_witness :
    pip_install_into_engine_sitepackages envExitThree "PySide6" []
        = ⟨[pip_install_cmd pyW "PySide6" []], .ok false⟩ ∧
    pip_uninstall_from_engine_sitepackages envExitThree "PySide6" []
        = ⟨[pip_uninstall_cmd pyW "PySide6" []], .ok false⟩ :=
  claim_C4 envExitThree pyW "PySide6" [] 3 3 "" "" rfl rfl rfl

theorem exists_exited_of_isExited (o : SpawnOutcome) (h : o.isExited = true) :
    ∃ code out, o = .exited code out := by
  cases o with
  | exited code out => exact ⟨code, out, rfl⟩
  | startFailure => simp [SpawnOutcome.isExited] at h

/-- Claim C2 (counterexample): when the interpreter is present but the pip
child process cannot be started, the install operation lets the `OSError`
escape instead of returning a boolean — the source catches only
`CalledProcessError`. -/
theorem claim_C2_counterexample :
    (pip_install_into_engine_sitepackages envStartFail "PySide6" []).outcome
      = .error .osError := rfl

/-- Claim C2 (amended): whenever every spawned child process starts and
runs to an exit (with any exit code), no exception propagates from any of
the operations: each returns its boolean / optional / unit value. -/
theorem claim_C2_amended (env : Env) (package : String) (extraArgs : List String)
    (h : ∀ cmd, (env.spawn cmd).isExited = true) :
    exceptOk (pip_install_into_engine_sitepackages env package extraArgs).outcome = true ∧
    exceptOk (pip_uninstall_from_engine_sitepackages env package extraArgs).outcome = true ∧
    exceptOk (get_pyside6_installation_info env).outcome = true ∧
    exceptOk (list_installed_packages env).outcome = true ∧
    exceptOk (cleanup_pyside6_cache env).outcome = true ∧
    exceptOk (check_pyside6_installed_run env).outcome = true ∧
    exceptOk (ensure_pyside2 env).outcome = true := by
  have inst : exceptOk (pip_install_into_engine_sitepackages env package extraArgs).outcome = true := by
    cases hpy : get_embedded_python_exe env with
    | none => simp [pip_install_into_engine_sitepackages, hpy, exceptOk]
    | some py =>
      obtain ⟨c, s, hc⟩ :=
        exists_exited_of_isExited _ (h (pip_install_cmd py package extraArgs))
      simp only [pip_install_into_engine_sitepackages, hpy, hc, runWait]
      cases hb : (c == 0) <;> simp [hb, exceptOk]
  have instP : exceptOk (pip_install_into_engine_sitepackages env "PySide6" []).outcome = true := by
    cases hpy : get_embedded_python_exe env with
    | none => simp [pip_install_into_engine_sitepackages, hpy, exceptOk]
    | some py =>
      obtain ⟨c, s, hc⟩ :=
        exists_exited_of_isExited _ (h (pip_install_cmd py "PySide6" []))
      simp only [pip_install_into_engine_sitepackages, hpy, hc, runWait]
      cases hb : (c == 0) <;> simp [hb, exceptOk]
  refine ⟨inst, ?_, ?_, ?_, ?_, ?_, ?_⟩
  · cases hpy : get_embedded_python_exe env with
    | none => simp [pip_uninstall_from_engine_sitepackages, hpy, exceptOk]
    | some py =>
      obtain ⟨c, s, hc⟩ :=
        exists_exited_of_isExited _ (h (pip_uninstall_cmd py package extraArgs))
      simp only [pip_uninstall_from_engine_sitepackages, hpy, hc, runWait]
      cases hb : (c == 0) <;> simp [hb, exceptOk]
  · cases hpy : get_embedded_python_exe env with
    | none => simp [get_pyside6_installation_info, hpy, exceptOk]
    | some py =>
      obtain ⟨c, s, hc⟩ := exists_exited_of_isExited _ (h (pip_show_cmd py))
      simp only [get_pyside6_installation_info, hpy, hc, runWait]
      cases hb : (c == 0) <;> simp [hb, exceptOk]
  · cases hpy : get_embedded_python_exe env with
    | none => simp [list_installed_packages, hpy, exceptOk]
    | some py =>
      obtain ⟨c, s, hc⟩ := exists_exited_of_isExited _ (h (pip_list_cmd py))
      simp only [list_installed_packages, hpy, hc, runWait]
      cases hb : (c == 0) <;> simp [hb, exceptOk]
  · cases hpy : get_embedded_python_exe env with
    | none => simp [cleanup_pyside6_cache, hpy, exceptOk]
    | some py =>
      obtain ⟨c, s, hc⟩ :=
        exists_exited_of_isExited _ (h (site_packages_query_cmd py))
      simp only [cleanup_pyside6_cache, hpy, hc, runWait]
      cases hb : (c == 0) <;> simp [hb, exceptOk]
  · simp [check_pyside6_installed_run, exceptOk]
  · by_cases hs : check_pyside6_installed env.findSpec
    · simp [ensure_pyside2, hs, exceptOk]
    · simpa [ensure_pyside2, hs] using instP

/-- Witness for the amended claim C2: with every spawn exiting normally,
the cleanup operation raises nothing. -/
theorem claim_C2_amended_witness :
    exceptOk (cleanup_pyside6_cache envExitZero).outcome = true :=
  (claim_C2_amended envExitZero "PySide6" [] (fun _ => rfl)).2.2.2.2.1

/-- Claim C6 (counterexample): in a concrete environment where the module
spec is not resolvable but the pip installation succeeds, `ensure_pyside2`
— the install script's availability operation — returns `true` and spawns
one subprocess, contradicting both halves of the claim. -/
theorem claim_C6_counterexample :
    envNoSpec.findSpec = none ∧
    (ensure_pyside2 envNoSpec).outcome = .ok true ∧
    (ensure_pyside2 envNoSpec).spawned.length = 1 :=
  ⟨rfl, rfl, rfl⟩

/-- Claim C6 (amended): the uninstall script's probe
`check_pyside6_installed` returns `true` exactly when the module spec is
resolvable and spawns no subprocess; the install script's `ensure_pyside2`
behaves that way only when the spec is resolvable — when it is not, it
falls through to the pip installation (which spawns a subprocess) and
returns that result instead. -/
theorem claim_C6_amended (env : Env) :
    check_pyside6_installed_run env = ⟨[], .ok env.findSpec.isSome⟩ ∧
    (env.findSpec.isSome = true → ensure_pyside2 env = ⟨[], .ok true⟩) ∧
    (env.findSpec.isSome = false →
      ensure_pyside2 env = pip_install_into_engine_sitepackages env "PySide6" []) := by
  refine ⟨?_, ?_, ?_⟩
  · cases h : env.findSpec <;>
      simp [check_pyside6_installed_run, check_pyside6_installed, h]
  · intro hs
    simp [ensure_pyside2, check_pyside6_installed, hs]
  · intro hs
    simp [ensure_pyside2, check_pyside6_installed, hs]

/-- Witness for the amended claim C6: with the spec resolvable,
`ensure_pyside2` returns `true` and spawns nothing. -/
theorem claim_C6_amended_witness :
    ensure_pyside2 envExitZero = ⟨[], .ok true⟩ :=
  (claim_C6_amended envExitZero).2.1 rfl

/-- Claim C7: whenever the locator reports the interpreter as not found,
every operation that needs it aborts with `false` / `none` / unit, spawns
no subprocess, and leaves the site-packages contents unchanged. -/
theorem claim_C7 (env : Env) (package : String) (extraArgs : List String)
    (h : get_embedded_python_exe env = none) :
    pip_install_into_engine_sitepackages env package extraArgs = ⟨[], .ok false⟩ ∧
    pip_uninstall_from_engine_sitepackages env package extraArgs = ⟨[], .ok false⟩ ∧
    get_pyside6_installation_info env = ⟨[], .ok none⟩ ∧
    list_installed_packages env = ⟨[], .ok ()⟩ ∧
    cleanup_pyside6_cache env = ⟨[], .ok false, env.sitePackages⟩ ∧
    open_python_folder_in_explorer env = ⟨[], .ok ()⟩ ∧
    open_cmd_at_python env = ⟨[], .ok ()⟩ := by
  refine ⟨?_, ?_, ?_, ?_, ?_, ?_, ?_⟩ <;>
    simp [pip_install_into_engine_sitepackages,
      pip_uninstall_from_engine_sitepackages, get_pyside6_installation_info,
      list_installed_packages, cleanup_pyside6_cache,
      open_python_folder_in_explorer, open_cmd_at_python, h]

/-- Witness for claim C7: a concrete environment with an empty filesystem,
on which cleanup aborts with `false`, spawns nothing and keeps the
site-packages contents. -/
theorem claim_C7_witness :
    cleanup_pyside6_cache envNotFound = ⟨[], .ok false, [⟨"PySide6", true, true⟩]⟩ :=
  (claim_C7 envNotFound "PySide6" [] rfl).2.2.2.2.1

/-- Claim C9: the uninstall driver returns `true` only when the pip
uninstall reported success and the follow-up probe no longer resolves the
package; in a run that reaches pip (the info query returned normally — it
executes first), pip success with the package still resolvable gives
`false`; and an initially absent package gives `false` with no subprocess
spawned. -/
theorem claim_C9 (env : Env) (specBefore specAfter : Option Unit) :
    ((uninstall_pyside6 env specBefore specAfter).outcome = .ok true →
      specBefore.isSome = true ∧
      (pip_uninstall_from_engine_sitepackages env "PySide6" []).outcome = .ok true ∧
      specAfter.isSome = false) ∧
    (specBefore.isSome = true →
      exceptOk (get_pyside6_installation_info env).outcome = true →
      (pip_uninstall_from_engine_sitepackages env "PySide6" []).outcome = .ok true →
      specAfter.isSome = true →
      (uninstall_pyside6 env specBefore specAfter).outcome = .ok false) ∧
    (specBefore.isSome = false →
      uninstall_pyside6 env specBefore specAfter = ⟨[], .ok false⟩) := by
  cases specBefore with
  | none =>
    refine ⟨?_, ?_, ?_⟩
    · intro habs
      simp [uninstall_pyside6, check_pyside6_installed] at habs
    · intro hsb
      simp at hsb
    · intro _
      simp [uninstall_pyside6, check_pyside6_installed]
  | some u =>
    refine ⟨?_, ?_, ?_⟩
    · intro htrue
      cases hinfo : (get_pyside6_installation_info env).outcome with
      | error e =>
        simp [uninstall_pyside6, check_pyside6_installed, hinfo] at htrue
      | ok i =>
        cases hunin : (pip_uninstall_from_engine_sitepackages env "PySide6" []).outcome with
        | error e =>
          simp [uninstall_pyside6, check_pyside6_installed, hinfo, hunin] at htrue
        | ok b =>
          cases b with
          | false =>
            simp [uninstall_pyside6, check_pyside6_installed, hinfo, hunin] at htrue
          | true =>
            refine ⟨rfl, rfl, ?_⟩
            cases specAfter with
            | none => rfl
            | some v =>
              simp [uninstall_pyside6, check_pyside6_installed, hinfo, hunin] at htrue
    · intro _ hinfoOk hunin hsa
      cases specAfter with
      | none => simp at hsa
      | some v =>
        cases hinfo : (get_pyside6_installation_info env).outcome with
        | error e => simp [hinfo, exceptOk] at hinfoOk
        | ok i =>
          simp [uninstall_pyside6, check_pyside6_installed, hinfo, hunin]
    · intro hsb
      simp at hsb

/-- Witness for claim C9: in a concrete environment where the initial probe
does not resolve the package, the driver returns `false` with no spawn. -/
theorem claim_C9_witness :
    uninstall_pyside6 envExitZero none (some ()) = ⟨[], .ok false⟩ :=
  (claim_C9 envExitZero none (some ())).2.2 rfl

/-- Claim C10: whenever the site-packages query subprocess runs to an exit,
cleanup returns exactly "exit code is zero" — in particular `true` whenever
the query succeeds, regardless of whether any removal succeeded. -/
theorem claim_C10 (env : Env) (py : FsPath) (code : Nat) (out : String)
    (hpy : get_embedded_python_exe env = some py)
    (hq : env.spawn (site_packages_query_cmd py) = .exited code out) :
    (cleanup_pyside6_cache env).outcome = .ok (code == 0) := by
  simp only [cleanup_pyside6_cache, hpy, hq, runWait]
  cases h : (code == 0) <;> simp [h]

/-- Witness for claim C10: every matched remnant fails to be removed, the
query exits 0, and cleanup still returns `true`. -/
theorem claim_C10_witness :
    (cleanup_pyside6_cache envCleanStuck).outcome = .ok true :=
  claim_C10 envCleanStuck pyW 0 "" rfl rfl

theorem removeLoop_eq_filter (m st : List SPEntry) :
    removeLoop m st =
      st.filter (fun x => ! m.any (fun e => e.name == x.name && e.removable)) := by
  induction m generalizing st with
  | nil => simp [removeLoop]
  | cons e rest ih =>
    cases hr : e.removable with
    | false =>
      simp only [removeLoop, hr, Bool.false_eq_true, if_false]
      rw [ih]
      apply List.filter_congr
      intro x _
      simp [List.any_cons, hr]
    | true =>
      simp only [removeLoop, hr, if_true]
      rw [ih, List.filter_filter]
      apply List.filter_congr
      intro x _
      by_cases hxe : e.name = x.name
      · simp [List.any_cons, hr, hxe, bne]
      · have hax : x.name ≠ e.name := fun hh => hxe hh.symm
        have h1 : (x.name != e.name) = true := by simp [bne_iff_ne, hax]
        have h2 : (e.name == x.name) = false := by simp [hxe]
        simp [List.any_cons, hr, h1, h2, Bool.and_comm]

theorem mem_matchedEntries {l : List SPEntry} {e : SPEntry} :
    e ∈ matchedEntries l ↔ e ∈ l ∧ matchesAnyPattern e.name = true := by
  unfold matchedEntries matchesAnyPattern
  rw [List.mem_flatten]
  constructor
  · rintro ⟨s, hs, hes⟩
    rw [List.mem_map] at hs
    obtain ⟨pat, hpat, rfl⟩ := hs
    rw [List.mem_filter] at hes
    refine ⟨hes.1, ?_⟩
    rw [List.any_eq_true]
    exact ⟨pat, hpat, hes.2⟩
  · rintro ⟨hel, hany⟩
    rw [List.any_eq_true] at hany
    obtain ⟨pat, hpat, hm⟩ := hany
    exact ⟨l.filter (fun x => globMatch pat x.name),
      List.mem_map.mpr ⟨pat, hpat, rfl⟩, List.mem_filter.mpr ⟨hel, hm⟩⟩

theorem matched_any_eq (l : List SPEntry)
    (hn : (l.map SPEntry.name).Nodup) (x : SPEntry) (hx : x ∈ l) :
    (matchedEntries l).any (fun e => e.name == x.name && e.removable)
      = (matchesAnyPattern x.name && x.removable) := by
  rw [Bool.eq_iff_iff]
  simp only [List.any_eq_true, Bool.and_eq_true, beq_iff_eq, mem_matchedEntries]
  constructor
  · rintro ⟨e, ⟨hel, hem⟩, hname, hrem⟩
    have hex : e = x := List.inj_on_of_nodup_map hn hel hx hname
    subst hex
    exact ⟨hem, hrem⟩
  · rintro ⟨hma, hrem⟩
    exact ⟨x, ⟨hx, hma⟩, rfl, hrem⟩

/-- Claim C5: on a successful site-packages query, cleanup finishes with a
normal `true` return, and the final directory contents are exactly the
original entries minus those whose names match a declared pattern and whose
removal succeeds — unmatched entries are untouched, and one matched entry
failing to be removed neither stops the other removals nor escapes. -/
theorem claim_C5 (env : Env) (py : FsPath) (out : String)
    (hn : (env.sitePackages.map SPEntry.name).Nodup)
    (hpy : get_embedded_python_exe env = some py)
    (hq : env.spawn (site_packages_query_cmd py) = .exited 0 out) :
    (cleanup_pyside6_cache env).outcome = .ok true ∧
    (cleanup_pyside6_cache env).finalListing =
      env.sitePackages.filter
        (fun e => ! (matchesAnyPattern e.name && e.removable)) := by
  have hrw : runWait (env.spawn (site_packages_query_cmd py)) = .normal out := by
    rw [hq]; rfl
  constructor
  · simp [cleanup_pyside6_cache, hpy, hrw]
  · simp only [cleanup_pyside6_cache, hpy, hrw]
    rw [removeLoop_eq_filter]
    apply List.filter_congr
    intro x hxmem
    rw [matched_any_eq env.sitePackages hn x hxmem]

/-- Witness for claim C5: with an unremovable matched directory, a
removable matched file, and an unrelated package in site-packages, cleanup
returns `true` and removes exactly the removable matched file. -/
theorem claim_C5_witness :
    (cleanup_pyside6_cache envCleanMixed).outcome = .ok true ∧
    (cleanup_pyside6_cache envCleanMixed).finalListing =
      [⟨"PySide6", true, false⟩, ⟨"numpy", true, true⟩] := by
  have h := claim_C5 envCleanMixed pyW "" (by decide) rfl rfl
  refine ⟨h.1, ?_⟩
  rw [h.2]
  decide

end UEPyside6
